import Mathlib

/-!
Verification of the security/integrity core of the localsports application
(`security_layer.cpp`, `rasp.cpp`, `security_hardening.cpp`, `localsports.cpp`)
against its natural-language specification.

Modelling conventions.

* Byte strings are `List ℕ`. The base64 transport encoding used between
  `EncryptForDB` and `DecryptFromDB` is a bijection between byte strings and
  its image, so it is modelled as the identity on the byte payload: a sealed
  value is the five header bytes of `"GCM1:"` followed directly by the
  `nonce ‖ ciphertext ‖ tag` bytes that the source base64-encodes.
* The AES-256-GCM primitive invoked through OpenSSL's EVP interface is not
  repository code; it is modelled as an ideal AEAD: encryption XORs the
  plaintext with a keystream determined by key and nonce, and the 16-entry
  authentication tag determines the associated data and the ciphertext
  (the ideal-cipher reading of GCM's authenticity guarantee).
* `RAND_bytes` (the fresh nonce) and the platform introspection results
  (the current `.text` digest, the debugger probe) are external inputs; they
  appear as explicit parameters of the modelled functions.
* Global mutable state (`g_config`, `g_eventLog`, `g_raspActive`, the app
  key) is threaded explicitly through state records; `std::exit` inside
  `FailClosedShutdown` is modelled by an `exited` field recording the exit
  code, after which the remaining source code on that path does not run.
-/

/-- Byte values of the version header `"GCM1:"` prepended by
`crypto::EncryptForDB` and required by `crypto::DecryptFromDB`. -/
def gcm1 : List ℕ := [71, 67, 77, 49, 58]

/-- Byte values of the string `"[DECRYPT-ERROR]"` returned by
`crypto::DecryptFromDB` when authenticated decryption fails. -/
def decryptError : List ℕ :=
  [91, 68, 69, 67, 82, 89, 80, 84, 45, 69, 82, 82, 79, 82, 93]

/-- Injective encoding of a byte string into a single natural number,
used by the ideal-AEAD tag so that the tag determines the associated data
and the ciphertext. -/
def encL : List ℕ → ℕ
  | [] => 0
  | x :: xs => Nat.pair x (encL xs) + 1

/-- Cheap non-cryptographic digest of a byte string; stands in for the
key and nonce dependence of the GCM keystream and tag. -/
def mix (l : List ℕ) : ℕ :=
  l.foldl (fun a b => (a * 131 + b) % 4294967296) 7

/-- Keystream byte `i` of the modelled AES-256-GCM cipher under key `k`
and 12-byte nonce `iv`. -/
def ks (k iv : List ℕ) (i : ℕ) : ℕ :=
  mix k + mix iv + i

/-- XOR of a byte string with the modelled GCM keystream starting at
stream position `i`; applying it twice restores the input, as for CTR-mode
encryption and decryption in the source. -/
def gcmXor (k iv : List ℕ) : ℕ → List ℕ → List ℕ
  | _, [] => []
  | i, b :: bs => (b ^^^ ks k iv i) :: gcmXor k iv (i + 1) bs

/-- The 16-entry authentication tag of the modelled AEAD. It depends on
the key, the nonce, the associated data and the ciphertext, and it
determines the associated data and the ciphertext (slots 2 and 3 carry
injective encodings), which is the idealised form of GCM authenticity. -/
def tag16 (k iv aad ct : List ℕ) : List ℕ :=
  [mix k, mix iv, encL aad, encL ct] ++ List.replicate 12 0

/-- Model of `crypto::EncryptForDB` (security_layer.cpp:138-214).
`key32` is `none` when the source receives a null key pointer; `iv` is the
fresh 12-byte nonce drawn by `RAND_bytes`. A null key or an empty
plaintext returns the empty string before any encryption is attempted;
otherwise the result is the `"GCM1:"` header followed by
`nonce ‖ ciphertext ‖ tag`. -/
def EncryptForDB (plaintext : List ℕ) (key32 : Option (List ℕ))
    (iv : List ℕ) (aad : List ℕ) : List ℕ :=
  match key32 with
  | none => []
  | some k =>
    if plaintext = [] then []
    else
      let ct := gcmXor k iv 0 plaintext
      gcm1 ++ (iv ++ (ct ++ tag16 k iv aad ct))

/-- Model of `crypto::DecryptFromDB` (security_layer.cpp:216-279).
Input lacking the `"GCM1:"` header or a null key returns the empty
string; a decoded payload shorter than the 12-byte nonce plus 16-byte tag
returns the empty string; a tag mismatch takes the source's catch path and
returns `"[DECRYPT-ERROR]"`; otherwise the plaintext is returned. -/
def DecryptFromDB (sealedVal : List ℕ) (key32 : Option (List ℕ))
    (aad : List ℕ) : List ℕ :=
  match key32 with
  | none => []
  | some k =>
    if gcm1.isPrefixOf sealedVal then
      let payload := sealedVal.drop 5
      if payload.length < 28 then []
      else
        let iv := payload.take 12
        let cipherLen := payload.length - 12 - 16
        let ct := (payload.drop 12).take cipherLen
        let tg := (payload.drop 12).drop cipherLen
        if tg = tag16 k iv aad ct then gcmXor k iv 0 ct
        else decryptError
    else []

/-- Model of `decryptMaybe` (localsports.cpp:152-163): values carrying the
`"GCM1:"` header are decrypted with the application key and empty
associated data (an uninitialised key makes `AppKey_Get` throw, caught as
`"[DECRYPT-ERROR]"`); all other values are returned unchanged. -/
def decryptMaybe (val : List ℕ) (key : Option (List ℕ)) : List ℕ :=
  if gcm1.isPrefixOf val then
    match key with
    | none => decryptError
    | some k => DecryptFromDB val (some k) []
  else val

-- ===== Helper lemmas about the cipher model =====

theorem gcmXor_gcmXor (k iv : List ℕ) :
    ∀ (i : ℕ) (l : List ℕ), gcmXor k iv i (gcmXor k iv i l) = l := by
  intro i l
  induction l generalizing i with
  | nil => rfl
  | cons b bs ih =>
      simp [gcmXor, Nat.xor_assoc, Nat.xor_self, ih]

theorem gcmXor_length (k iv : List ℕ) :
    ∀ (i : ℕ) (l : List ℕ), (gcmXor k iv i l).length = l.length := by
  intro i l
  induction l generalizing i with
  | nil => rfl
  | cons b bs ih => simp [gcmXor, ih]

theorem encL_injective : Function.Injective encL := by
  intro a
  induction a with
  | nil =>
      intro b h
      cases b with
      | nil => rfl
      | cons y ys => simp [encL] at h
  | cons x xs ih =>
      intro b h
      cases b with
      | nil => simp [encL] at h
      | cons y ys =>
          simp only [encL, Nat.add_right_cancel_iff] at h
          have hx : x = y ∧ encL xs = encL ys := by
            constructor
            · have := congrArg (fun n => (Nat.unpair n).1) h
              simpa using this
            · have := congrArg (fun n => (Nat.unpair n).2) h
              simpa using this
          rw [hx.1, ih hx.2]

theorem tag16_length (k iv aad ct : List ℕ) : (tag16 k iv aad ct).length = 16 := by
  simp [tag16]

theorem tag16_aad_ne (k iv : List ℕ) {a1 a2 : List ℕ} (ct : List ℕ)
    (h : a1 ≠ a2) : tag16 k iv a1 ct ≠ tag16 k iv a2 ct := by
  intro he
  apply h
  apply encL_injective
  simpa [tag16] using congrArg (fun l => l.getD 2 0) he

theorem tag16_ct_ne (k iv aad : List ℕ) {c1 c2 : List ℕ}
    (h : c1 ≠ c2) : tag16 k iv aad c1 ≠ tag16 k iv aad c2 := by
  intro he
  apply h
  apply encL_injective
  simpa [tag16] using congrArg (fun l => l.getD 3 0) he

theorem gcm1_isPrefixOf_append (rest : List ℕ) :
    gcm1.isPrefixOf (gcm1 ++ rest) = true := by
  rw [ List.isPrefixOf_iff_prefix]
  exact List.prefix_append _ _

/-- Decrypting a well-formed sealed payload `iv ‖ ct ‖ tag` decomposes it
at the positions used by the source (`cipherLen = decodedLen - 12 - 16`). -/
theorem DecryptFromDB_append (k iv ct tg aad : List ℕ)
    (hiv : iv.length = 12) (htg : tg.length = 16) :
    DecryptFromDB (gcm1 ++ (iv ++ (ct ++ tg))) (some k) aad =
      (if tg = tag16 k iv aad ct then gcmXor k iv 0 ct else decryptError) := by
  have hdrop : (gcm1 ++ (iv ++ (ct ++ tg))).drop 5 = iv ++ (ct ++ tg) :=
    List.drop_left' (by simp [gcm1])
  have hlen : (iv ++ (ct ++ tg)).length = 12 + ct.length + 16 := by
    simp [hiv, htg]; omega
  have hnotshort : ¬ (iv ++ (ct ++ tg)).length < 28 := by omega
  have htake : (iv ++ (ct ++ tg)).take 12 = iv := List.take_left' hiv
  have hdrop12 : (iv ++ (ct ++ tg)).drop 12 = ct ++ tg := List.drop_left' hiv
  have hclen : (iv ++ (ct ++ tg)).length - 12 - 16 = ct.length := by omega
  have hct : ((iv ++ (ct ++ tg)).drop 12).take ((iv ++ (ct ++ tg)).length - 12 - 16) = ct := by
    rw [hdrop12, hclen]; exact List.take_left ct tg
  have htg2 : ((iv ++ (ct ++ tg)).drop 12).drop ((iv ++ (ct ++ tg)).length - 12 - 16) = tg := by
    rw [hdrop12, hclen]; exact List.drop_left ct tg
  simp only [DecryptFromDB, gcm1_isPrefixOf_append, if_true, hdrop,
    hnotshort, if_false, htake, hct, htg2]

/-- C1. FieldCipher round-trip: for every byte string `p`, every associated
data `a`, every key and every 12-byte nonce drawn by `encrypt`, decrypting
the output of `EncryptForDB` with the same key and the same associated data
returns exactly `p`. (An empty `p` makes `EncryptForDB` return the empty
string — see C10 — which `DecryptFromDB` maps back to the empty string, so
the round-trip holds there as well.) -/
theorem fieldcipher_roundtrip (p a k iv : List ℕ) (hiv : iv.length = 12) :
    DecryptFromDB (EncryptForDB p (some k) iv a) (some k) a = p := by
  by_cases hp : p = []
  · subst hp
    rfl
  · have henc : EncryptForDB p (some k) iv a =
        gcm1 ++ (iv ++ (gcmXor k iv 0 p ++ tag16 k iv a (gcmXor k iv 0 p))) := by
      simp [EncryptForDB, hp]
    rw [henc, DecryptFromDB_append k iv _ _ a hiv (tag16_length _ _ _ _)]
    simp [gcmXor_gcmXor]

/-- Witness for C1 at a concrete plaintext, associated data, key and nonce. -/
theorem fieldcipher_roundtrip_witness :
    DecryptFromDB
      (EncryptForDB [104, 105] (some (List.replicate 32 7))
        (List.replicate 12 0) [97]) (some (List.replicate 32 7)) [97] =
      [104, 105] :=
  fieldcipher_roundtrip [104, 105] [97] (List.replicate 32 7)
    (List.replicate 12 0) (by simp)

-- ===== C2: unsealed passthrough =====

/-- Concrete key value (a 32-byte all-zero key) used by counterexamples. -/
def key0 : List ℕ := List.replicate 32 0

/-- Byte values of the string `"hello"`, an input without the `"GCM1:"`
header. -/
def helloBytes : List ℕ := [104, 101, 108, 108, 111]

/-- C2 counterexample. The claim "DecryptFromDB returns the original input
value unchanged" is false at the concrete prefix-lacking input `"hello"`
(with a 32-byte key and empty associated data): the guard
`sealed.rfind("GCM1:", 0) != 0` returns the empty string, not the original
input (security_layer.cpp:221-222). -/
theorem unsealed_passthrough_counterexample :
    DecryptFromDB helloBytes (some key0) [] ≠ helloBytes ∧
    DecryptFromDB helloBytes (some key0) [] = [] := by
  refine ⟨by decide, rfl⟩

/-- C2 amended. The plaintext passthrough lives one layer up, in
`decryptMaybe` (localsports.cpp:152-163): an input lacking the `"GCM1:"`
header is returned unchanged by `decryptMaybe`, for every key state, while
`DecryptFromDB` itself returns the empty string on such input for every
key and associated data. -/
theorem unsealed_passthrough (val : List ℕ) (key : Option (List ℕ))
    (aad : List ℕ) (h : gcm1.isPrefixOf val = false) :
    decryptMaybe val key = val ∧ DecryptFromDB val key aad = [] := by
  constructor
  · simp [decryptMaybe, h]
  · cases key with
    | none => rfl
    | some k => simp [DecryptFromDB, h]

/-- Witness for C2 amended at the concrete input `"hello"`. -/
theorem unsealed_passthrough_witness :
    decryptMaybe helloBytes (some key0) = helloBytes ∧
      DecryptFromDB helloBytes (some key0) [] = [] :=
  unsealed_passthrough helloBytes (some key0) [] (by decide)

-- ===== C3: tamper sensitivity =====

/-- C3. Tamper sensitivity: for any sealed value produced by
`EncryptForDB`, replacing the ciphertext by any other byte string of the
same length (in particular flipping any single ciphertext byte), or
replacing the tag by any other 16-byte string (in particular flipping any
single tag byte), makes `DecryptFromDB` fail with the distinguishable
error value `"[DECRYPT-ERROR]"`; and any `"GCM1:"`-headed input whose
decoded payload is shorter than the 28-byte nonce-plus-tag minimum yields
the empty-string defect result, never partial plaintext
(security_layer.cpp:234-235, 264-275). -/
theorem tamper_sensitivity (p a k iv : List ℕ)
    (hp : p ≠ []) (hiv : iv.length = 12) :
    (∀ ct' : List ℕ, ct'.length = p.length → ct' ≠ gcmXor k iv 0 p →
      DecryptFromDB (gcm1 ++ (iv ++ (ct' ++ tag16 k iv a (gcmXor k iv 0 p))))
        (some k) a = decryptError) ∧
    (∀ tg' : List ℕ, tg'.length = 16 → tg' ≠ tag16 k iv a (gcmXor k iv 0 p) →
      DecryptFromDB (gcm1 ++ (iv ++ (gcmXor k iv 0 p ++ tg')))
        (some k) a = decryptError) ∧
    (∀ s : List ℕ, gcm1.isPrefixOf s = true → (s.drop 5).length < 28 →
      DecryptFromDB s (some k) a = []) := by
  refine ⟨?_, ?_, ?_⟩
  · intro ct' hlen hne
    rw [DecryptFromDB_append k iv ct' _ a hiv (tag16_length _ _ _ _)]
    have : tag16 k iv a (gcmXor k iv 0 p) ≠ tag16 k iv a ct' :=
      tag16_ct_ne k iv a (fun he => hne he.symm)
    simp [this]
  · intro tg' hlen hne
    rw [DecryptFromDB_append k iv _ tg' a hiv hlen]
    simp [hne]
  · intro s hpre hshort
    simp only [DecryptFromDB, hpre, if_true]
    rw [if_pos hshort]

/-- Witness for C3 at a concrete sealed value: a corrupted one-byte
ciphertext, a corrupted tag, and a short (`"GCM1:"` with empty payload)
input. -/
theorem tamper_sensitivity_witness :
    DecryptFromDB (gcm1 ++ (List.replicate 12 0 ++
        ([99] ++ tag16 key0 (List.replicate 12 0) [97] (gcmXor key0 (List.replicate 12 0) 0 [104]))))
      (some key0) [97] = decryptError ∧
    DecryptFromDB (gcm1 ++ (List.replicate 12 0 ++
        (gcmXor key0 (List.replicate 12 0) 0 [104] ++ List.replicate 16 5)))
      (some key0) [97] = decryptError ∧
    DecryptFromDB gcm1 (some key0) [97] = [] := by
  have h := tamper_sensitivity [104] [97] key0 (List.replicate 12 0)
    (by decide) (by simp)
  refine ⟨h.1 [99] (by decide) (by decide), ?_, ?_⟩
  · exact h.2.1 (List.replicate 16 5) (by simp) (by decide)
  · exact h.2.2 gcm1 (by decide) (by decide)

-- ===== C4: AAD binding =====

/-- C4. AAD binding: decrypting a sealed value under associated data
different from the one it was sealed with fails deterministically with the
distinguishable error value, for every plaintext, key and nonce: the tag
recomputed over the second associated data can never match the stored tag
(security_layer.cpp:162-169, 250-257). -/
theorem aad_binding (p a1 a2 k iv : List ℕ)
    (hp : p ≠ []) (hiv : iv.length = 12) (hne : a1 ≠ a2) :
    DecryptFromDB (EncryptForDB p (some k) iv a1) (some k) a2 = decryptError := by
  have henc : EncryptForDB p (some k) iv a1 =
      gcm1 ++ (iv ++ (gcmXor k iv 0 p ++ tag16 k iv a1 (gcmXor k iv 0 p))) := by
    simp [EncryptForDB, hp]
  rw [henc, DecryptFromDB_append k iv _ _ a2 hiv (tag16_length _ _ _ _)]
  have : tag16 k iv a1 (gcmXor k iv 0 p) ≠ tag16 k iv a2 (gcmXor k iv 0 p) :=
    tag16_aad_ne k iv _ hne
  simp [this]

/-- Witness for C4 at concrete distinct associated-data values. -/
theorem aad_binding_witness :
    DecryptFromDB (EncryptForDB [104] (some key0) (List.replicate 12 0) [97])
      (some key0) [98] = decryptError :=
  aad_binding [104] [97] [98] key0 (List.replicate 12 0)
    (by decide) (by simp) (by decide)

-- ===== C10: empty-plaintext / null-key guard of EncryptForDB =====

/-- C10. `EncryptForDB` returns the empty string exactly when the plaintext
is empty or the key pointer is null (security_layer.cpp:143), with no error
indication; every other call returns a `"GCM1:"`-headed sealed value, so an
empty field value can never be sealed and an empty result is
indistinguishable from this guard. -/
theorem encrypt_empty_guard (p : List ℕ) (key : Option (List ℕ))
    (iv aad : List ℕ) :
    (EncryptForDB p key iv aad = [] ↔ (key = none ∨ p = [])) ∧
    (∀ k : List ℕ, key = some k → p ≠ [] →
      gcm1.isPrefixOf (EncryptForDB p key iv aad) = true) := by
  constructor
  · cases key with
    | none => simp [EncryptForDB]
    | some k =>
        by_cases hp : p = []
        · simp [EncryptForDB, hp]
        · simp [EncryptForDB, hp]
          intro hg
          exact absurd hg (by decide)
  · intro k hk hp
    subst hk
    have henc : EncryptForDB p (some k) iv aad =
        gcm1 ++ (iv ++ (gcmXor k iv 0 p ++ tag16 k iv aad (gcmXor k iv 0 p))) := by
      simp [EncryptForDB, hp]
    rw [henc]
    exact gcm1_isPrefixOf_append _

/-- Witness for C10: the guard fires on an empty plaintext and on a null
key, and a nonempty plaintext under a non-null key yields a
`"GCM1:"`-headed result. -/
theorem encrypt_empty_guard_witness :
    EncryptForDB [] (some key0) (List.replicate 12 0) [] = [] ∧
    EncryptForDB [104] none (List.replicate 12 0) [] = [] ∧
    gcm1.isPrefixOf (EncryptForDB [104] (some key0) (List.replicate 12 0) []) = true :=
  ⟨((encrypt_empty_guard [] (some key0) (List.replicate 12 0) []).1).2 (Or.inr rfl),
   ((encrypt_empty_guard [104] none (List.replicate 12 0) []).1).2 (Or.inl rfl),
   (encrypt_empty_guard [104] (some key0) (List.replicate 12 0) []).2 key0 rfl (by decide)⟩

-- ===== RASP model (rasp.cpp) =====

/-- Model of `rasp::SecurityEvent` (rasp.h:12-17). Severity 1 is info,
2 warning, 3 critical. Wall-clock timestamps are an external input and are
abstracted to the empty string. -/
structure SecurityEvent where
  timestamp : String
  eventType : String
  description : String
  severity : ℕ
deriving DecidableEq, Repr

/-- Model of `rasp::RASPConfig` (rasp.h:175-182). -/
structure RASPConfig where
  enableDebuggerDetection : Bool
  enableChecksumVerification : Bool
  enableHookDetection : Bool
  autoTerminateOnThreat : Bool
  monitoringIntervalMs : ℕ
  logFilePath : String
deriving DecidableEq, Repr

/-- The global mutable state of rasp.cpp (rasp.cpp:46-53): the active
flag, the monitoring-thread flag, the configuration, the in-memory event
log, the expected checksum, and — modelling `std::exit` — the exit code
once `FailClosedShutdown` has terminated the process. -/
structure RaspState where
  raspActive : Bool
  debuggerMonitorRunning : Bool
  config : RASPConfig
  eventLog : List SecurityEvent
  expectedChecksum : String
  exited : Option ℕ
deriving DecidableEq, Repr

/-- Model of `rasp::LogSecurityEvent` (rasp.cpp:508-526): append to the
in-memory log (the durable file write is outside the model; its failure
does not drop the in-memory copy). -/
def LogSecurityEvent (e : SecurityEvent) (s : RaspState) : RaspState :=
  { s with eventLog := s.eventLog ++ [e] }

/-- Model of `rasp::ShutdownRASP` (rasp.cpp:681-692): a no-op when
inactive; otherwise stops debugger monitoring and clears the active flag. -/
def ShutdownRASP (s : RaspState) : RaspState :=
  if s.raspActive then
    { s with debuggerMonitorRunning := false, raspActive := false }
  else s

/-- Model of `rasp::FailClosedShutdown` (rasp.cpp:593-609): log a final
`FAIL_CLOSED_SHUTDOWN` critical event, shut RASP down, and terminate the
process with `EXIT_FAILURE` (recorded in `exited`). -/
def FailClosedShutdown (reason : String) (s : RaspState) : RaspState :=
  let s1 := LogSecurityEvent ⟨"", "FAIL_CLOSED_SHUTDOWN", reason, 3⟩ s
  let s2 := ShutdownRASP s1
  { s2 with exited := some 1 }

/-- Model of `rasp::HandleCriticalEvent` (rasp.cpp:528-547): log a
severity-3 event of the given type and, when `terminateApp` is set,
invoke the fail-closed shutdown. -/
def HandleCriticalEvent (eventType description : String)
    (terminateApp : Bool) (s : RaspState) : RaspState :=
  let s1 := LogSecurityEvent ⟨"", eventType, description, 3⟩ s
  if terminateApp then FailClosedShutdown description s1 else s1

/-- Model of `rasp::VerifyTextSectionIntegrity` (rasp.cpp:299-367).
`current` is the digest the platform-specific
`CalculateTextSectionChecksum` would return (an external input of the
model; empty on calculation failure). An empty expected checksum skips the
check and passes; an empty current digest logs a critical
`CHECKSUM_CALCULATION_FAILED` event and fails; a mismatch logs a critical
`CHECKSUM_MISMATCH` event and fails; a match logs an info
`INTEGRITY_CHECK_PASSED` event and passes. -/
def VerifyTextSectionIntegrity (current expectedChecksum : String)
    (s : RaspState) : Bool × RaspState :=
  if expectedChecksum = "" then (true, s)
  else if current = "" then
    (false, LogSecurityEvent
      ⟨"", "CHECKSUM_CALCULATION_FAILED",
        "Failed to calculate .text section checksum", 3⟩ s)
  else if current = expectedChecksum then
    (true, LogSecurityEvent
      ⟨"", "INTEGRITY_CHECK_PASSED",
        "Binary integrity verified successfully", 1⟩ s)
  else
    (false, LogSecurityEvent
      ⟨"", "CHECKSUM_MISMATCH",
        "Code tampering detected - Expected: " ++ expectedChecksum ++
          " Got: " ++ current, 3⟩ s)

/-- Model of `rasp::BootTimeIntegrityCheck` (rasp.cpp:369-380): skipped
when checksum verification is disabled; on verification failure it calls
`HandleCriticalEvent` with `terminateApp` hardcoded to `true`, regardless
of `autoTerminateOnThreat`. -/
def BootTimeIntegrityCheck (current expectedChecksum : String)
    (s : RaspState) : Bool × RaspState :=
  if ¬ s.config.enableChecksumVerification then (true, s)
  else
    let r := VerifyTextSectionIntegrity current expectedChecksum s
    if ¬ r.1 then
      (false, HandleCriticalEvent "BOOT_INTEGRITY_FAILED"
        "Application code has been modified, terminating" true r.2)
    else (true, r.2)

/-- Model of `rasp::InitializeRASP` (rasp.cpp:624-679) for the Linux
build, on which `DetectIATHooks` and `DetectPLTHooks` both return 0
(rasp.cpp:428-431, 435-463), so the hook branch logs no event. `current`
is the externally computed `.text` digest. Already-active RASP returns
failure without touching the state; otherwise the expected checksum and
the auto-terminate policy are stored, the boot-time integrity check runs
(terminating the process on failure), debugger monitoring starts if
enabled, and the active flag is set. -/
def InitializeRASP (expectedChecksum : String) (autoTerminateOnThreat : Bool)
    (current : String) (s : RaspState) : Bool × RaspState :=
  if s.raspActive then (false, s)
  else
    let s1 := { s with expectedChecksum := expectedChecksum,
                       config := { s.config with
                                    autoTerminateOnThreat := autoTerminateOnThreat } }
    if s1.config.enableChecksumVerification then
      let r := BootTimeIntegrityCheck current expectedChecksum s1
      if ¬ r.1 then (false, r.2)
      else
        let s2 := if r.2.config.enableDebuggerDetection then
                    { r.2 with debuggerMonitorRunning := true }
                  else r.2
        (true, { s2 with raspActive := true })
    else
      let s2 := if s1.config.enableDebuggerDetection then
                  { s1 with debuggerMonitorRunning := true }
                else s1
      (true, { s2 with raspActive := true })

/-- Model of `rasp::ConfigureRASP` (rasp.cpp:734-736): replaces the global
configuration wholesale, with no check of the active flag. -/
def ConfigureRASP (config : RASPConfig) (s : RaspState) : RaspState :=
  { s with config := config }

/-- Model of `hardening::VerifyIntegrity`
(security_hardening.cpp:195-202): an empty expected hash passes; otherwise
the externally computed executable hash (`currentHash`, empty on
calculation failure) must equal the expected one. No event is logged. -/
def VerifyIntegrity (currentHash expectedHash : String) : Bool :=
  if expectedHash = "" then true
  else currentHash == expectedHash

/-- A default configuration as in rasp.h:175-182, with all checks enabled. -/
def defaultConfig : RASPConfig :=
  ⟨true, true, true, true, 5000, "rasp_security.log"⟩

/-- The initial global state of rasp.cpp before any call (rasp.cpp:46-53). -/
def initialRaspState : RaspState :=
  ⟨false, false, defaultConfig, [], "", none⟩

/-- A wrong 64-hex-character baseline digest for the C5 scenario. -/
def wrongDigest : String := String.mk (List.replicate 64 'a')

/-- The (distinct) digest the platform calculation actually returns in the
C5 scenario. -/
def currentDigest : String := String.mk (List.replicate 64 'b')

/-- C5 counterexample. The claim's conjunct "the process is not forced to
exit" (`exited = none`) is false at the concrete scenario input: from the
initial state, with checksum verification enabled,
`autoTerminateOnThreat:false` and the wrong 64-hex baseline `wrongDigest`
against the computed digest `currentDigest`, `InitializeRASP` terminates
the process with `EXIT_FAILURE` — `BootTimeIntegrityCheck` passes
`terminateApp = true` to `HandleCriticalEvent` unconditionally
(rasp.cpp:376-378), so `FailClosedShutdown` runs
`std::exit(EXIT_FAILURE)` regardless of the configured policy. -/
theorem startup_integrity_failure_counterexample :
    (InitializeRASP wrongDigest false currentDigest initialRaspState).2.exited
      ≠ none ∧
    (InitializeRASP wrongDigest false currentDigest initialRaspState).2.exited
      = some 1 := by
  refine ⟨by decide, rfl⟩

/-- C5 amended. In the scenario (integrity check enabled, auto-terminate
policy false, wrong nonempty baseline digest, successfully computed
current digest), start records the critical `CHECKSUM_MISMATCH` event and
then terminates the process fail-closed with `EXIT_FAILURE`, regardless of
`autoTerminateOnThreat`, without ever activating RASP; `start()` never
returns to its caller (the model's return value on the already-dead path
is failure, matching the `return false` the source would reach had
`std::exit` not fired). -/
theorem startup_integrity_failure (s : RaspState) (expected current : String)
    (hact : s.raspActive = false)
    (hchk : s.config.enableChecksumVerification = true)
    (hexp : expected ≠ "") (hcur : current ≠ "") (hne : current ≠ expected) :
    (InitializeRASP expected false current s).1 = false ∧
    (InitializeRASP expected false current s).2.exited = some 1 ∧
    (InitializeRASP expected false current s).2.raspActive = false ∧
    ∃ e ∈ (InitializeRASP expected false current s).2.eventLog,
      e.eventType = "CHECKSUM_MISMATCH" ∧ e.severity = 3 := by
  simp only [InitializeRASP, BootTimeIntegrityCheck, VerifyTextSectionIntegrity,
    HandleCriticalEvent, FailClosedShutdown, ShutdownRASP, LogSecurityEvent,
    hact, hchk, hexp, hcur, hne, Bool.false_eq_true, if_false, if_neg,
    not_true, not_false_iff, ite_true, ite_false]
  simp [hexp, hcur, hne, hact, hchk]
  exact ⟨_, Or.inr (Or.inl rfl), rfl, rfl⟩

/-- Witness for C5 amended at the concrete scenario state. -/
theorem startup_integrity_failure_witness :
    (InitializeRASP wrongDigest false currentDigest initialRaspState).1 = false ∧
    (InitializeRASP wrongDigest false currentDigest initialRaspState).2.exited
      = some 1 ∧
    (InitializeRASP wrongDigest false currentDigest
        initialRaspState).2.raspActive = false ∧
    ∃ e ∈ (InitializeRASP wrongDigest false currentDigest
              initialRaspState).2.eventLog,
      e.eventType = "CHECKSUM_MISMATCH" ∧ e.severity = 3 :=
  startup_integrity_failure initialRaspState wrongDigest currentDigest
    rfl rfl (by decide) (by decide) (by decide)

/-- C6. Integrity verification semantics of
`rasp::VerifyTextSectionIntegrity` and `hardening::VerifyIntegrity`:
verifying against an empty expected digest always passes (permissive
"no baseline configured" default, without touching the event log);
verifying against the digest the computation just returned passes; and
verifying against any other string fails, with — for the RASP verifier — a
critical (severity 3) `SecurityEvent` appended to the log before the
boolean is returned. -/
theorem integrity_verification_semantics (current : String) (s : RaspState) :
    VerifyTextSectionIntegrity current "" s = (true, s) ∧
    (VerifyTextSectionIntegrity current current s).1 = true ∧
    (∀ expected : String, expected ≠ "" → expected ≠ current →
      (VerifyTextSectionIntegrity current expected s).1 = false ∧
      ∃ e, (VerifyTextSectionIntegrity current expected s).2.eventLog =
            s.eventLog ++ [e] ∧ e.severity = 3) ∧
    VerifyIntegrity current "" = true ∧
    VerifyIntegrity current current = true ∧
    (∀ expected : String, expected ≠ "" → expected ≠ current →
      VerifyIntegrity current expected = false) := by
  refine ⟨by simp [VerifyTextSectionIntegrity], ?_, ?_, ?_, ?_, ?_⟩
  · by_cases hc : current = ""
    · simp [VerifyTextSectionIntegrity, hc]
    · simp [VerifyTextSectionIntegrity, hc]
  · intro expected hexp hnec
    have hne : current ≠ expected := fun h => hnec h.symm
    by_cases hc : current = ""
    · refine ⟨by simp [VerifyTextSectionIntegrity, hexp, hc], ?_⟩
      exact ⟨⟨"", "CHECKSUM_CALCULATION_FAILED",
          "Failed to calculate .text section checksum", 3⟩,
        by simp [VerifyTextSectionIntegrity, hexp, hc, LogSecurityEvent], rfl⟩
    · refine ⟨by simp [VerifyTextSectionIntegrity, hexp, hc, hne], ?_⟩
      exact ⟨⟨"", "CHECKSUM_MISMATCH",
          "Code tampering detected - Expected: " ++ expected ++
            " Got: " ++ current, 3⟩,
        by simp [VerifyTextSectionIntegrity, hexp, hc, hne, LogSecurityEvent], rfl⟩
  · simp [VerifyIntegrity]
  · by_cases hc : current = "" <;> simp [VerifyIntegrity, hc]
  · intro expected hexp hnec
    have hne : current ≠ expected := fun h => hnec h.symm
    simp [VerifyIntegrity, hexp, hne]

/-- Witness for C6 at concrete digests. -/
theorem integrity_verification_semantics_witness :
    VerifyTextSectionIntegrity currentDigest "" initialRaspState
      = (true, initialRaspState) ∧
    (VerifyTextSectionIntegrity currentDigest currentDigest
        initialRaspState).1 = true ∧
    ((VerifyTextSectionIntegrity currentDigest wrongDigest
        initialRaspState).1 = false ∧
      ∃ e, (VerifyTextSectionIntegrity currentDigest wrongDigest
              initialRaspState).2.eventLog = initialRaspState.eventLog ++ [e] ∧
        e.severity = 3) ∧
    VerifyIntegrity currentDigest currentDigest = true ∧
    VerifyIntegrity currentDigest wrongDigest = false := by
  have h := integrity_verification_semantics currentDigest initialRaspState
  exact ⟨h.1, h.2.1, h.2.2.1 wrongDigest (by decide) (by decide),
    h.2.2.2.2.1, h.2.2.2.2.2 wrongDigest (by decide) (by decide)⟩

/-- The state after a successful `start()`: `InitializeRASP` run from the
initial global state with an empty baseline digest (the permissive
default, under which the boot-time integrity check passes) and
`autoTerminateOnThreat:false`. -/
def activeState : RaspState :=
  (InitializeRASP "" false currentDigest initialRaspState).2

/-- C8 counterexample. The RASP configuration is not read-only between a
successful `start()` and `stop()`: from the state `activeState` actually
produced by a succeeding `InitializeRASP` (which returns `true` and sets
the active flag), the core operation `ConfigureRASP` (rasp.cpp:734-736)
replaces `g_config` wholesale — it has no check of the active flag — so
the active configuration is mutated, refuting the claim. -/
theorem config_immutability_counterexample :
    (InitializeRASP "" false currentDigest initialRaspState).1 = true ∧
    activeState.raspActive = true ∧
    (ConfigureRASP { defaultConfig with monitoringIntervalMs := 1000 }
        activeState).config ≠ activeState.config := by
  refine ⟨rfl, rfl, by decide⟩

/-- C8 amended. `ConfigureRASP` replaces the configuration wholesale at any
time — before and equally after `start()` succeeds — leaving the rest of
the state untouched; no operation guards the configuration behind the
active flag. `InitializeRASP` called while already active returns failure
without side effects (rasp.cpp:625-628), and is the only other writer of
the configuration (it stores the auto-terminate policy before activation). -/
theorem config_replaceable_anytime :
    (∀ (c : RASPConfig) (s : RaspState),
      (ConfigureRASP c s).config = c ∧
      (ConfigureRASP c s).raspActive = s.raspActive ∧
      (ConfigureRASP c s).eventLog = s.eventLog) ∧
    (∀ (e cur : String) (a : Bool) (s : RaspState),
      s.raspActive = true → InitializeRASP e a cur s = (false, s)) := by
  constructor
  · intro c s
    exact ⟨rfl, rfl, rfl⟩
  · intro e cur a s h
    simp [InitializeRASP, h]

/-- Witness for C8 amended at the concrete post-`start()` active state. -/
theorem config_replaceable_anytime_witness :
    (ConfigureRASP { defaultConfig with monitoringIntervalMs := 1000 }
        activeState).config =
      { defaultConfig with monitoringIntervalMs := 1000 } ∧
    InitializeRASP "" true "" activeState = (false, activeState) := by
  constructor
  · exact (config_replaceable_anytime.1 _ _).1
  · exact config_replaceable_anytime.2 "" "" true activeState (by decide)

-- ===== AppKey manager (security_layer.cpp:292-361) =====

/-- The application-key state of security_layer.cpp (`g_appKey`,
`g_appKeyInitialized`). -/
structure AppKeyState where
  appKeyInitialized : Bool
  appKey : List ℕ
deriving DecidableEq, Repr

/-- Model of `AppKey_InitFromEnvOrPrompt` (security_layer.cpp:331-361).
`derive` is the outcome of the external
`PKCS5_PBKDF2_HMAC` stretch over the fixed per-build salt (`none` models a
derivation failure); `env` is the `LS_APP_PASSPHRASE` environment value
(`none` when unset) and `prompted` the interactively read passphrase. The
last component of the result records whether every nonempty passphrase
buffer materialised on the taken path has been wiped with `secure_bzero`
when the function returns: on the success path line 358 wipes it, but the
derivation-failure path (lines 352-356) returns without wiping. -/
def AppKey_InitFromEnvOrPrompt (derive : String → Option (List ℕ))
    (env : Option String) (prompted : String) (s : AppKeyState) :
    Bool × AppKeyState × Bool :=
  if s.appKeyInitialized then (true, s, true)
  else
    let fromEnv := match env with | some v => v | none => ""
    let passphrase := if fromEnv = "" then prompted else fromEnv
    if passphrase = "" then (false, s, true)
    else
      match derive passphrase with
      | none => (false, { s with appKey := [] }, false)
      | some key => (true, ⟨true, key⟩, true)

/-- C7 (code bug). The raw passphrase buffer is not wiped on every
execution path: when key derivation fails, `AppKey_InitFromEnvOrPrompt`
cleanses `g_appKey` and returns false without ever calling `secure_bzero`
on the passphrase (security_layer.cpp:352-356 — the wipe at line 358 is
reached only on success), leaving the nonempty passphrase in memory. The
success path, by contrast, does wipe it. -/
theorem passphrase_wipe_gap :
    (AppKey_InitFromEnvOrPrompt (fun _ => none) (some "pw") "" ⟨false, []⟩).2.2
      = false ∧
    (AppKey_InitFromEnvOrPrompt (fun _ => none) (some "pw") "" ⟨false, []⟩).1
      = false ∧
    (AppKey_InitFromEnvOrPrompt (fun _ => some (List.replicate 32 1))
        (some "pw") "" ⟨false, []⟩).2.2 = true := by
  refine ⟨rfl, rfl, rfl⟩

-- ===== Constant-time comparison (localsports.cpp:133-135) =====

/-- Modelled from the spec: OpenSSL's `CRYPTO_memcmp`, called by
`ct_equal` (localsports.cpp:133-135), is not repository code; the spec
requires a comparison "in constant time (comparison cost independent of
where the first mismatching byte occurs)". The loop ORs the XOR of every
byte pair into an accumulator and never exits early; the second component
counts the loop iterations performed (the comparison cost). -/
def memcmpGo : ℕ → List ℕ → List ℕ → ℕ × ℕ
  | acc, [], _ => (acc, 0)
  | acc, _, [] => (acc, 0)
  | acc, x :: xs, y :: ys =>
    let r := memcmpGo (acc ||| (x ^^^ y)) xs ys
    (r.1, r.2 + 1)

/-- Accumulated difference word of the modelled `CRYPTO_memcmp`. -/
def CRYPTO_memcmp (a b : List ℕ) : ℕ := (memcmpGo 0 a b).1

/-- Number of byte-compare iterations `CRYPTO_memcmp` performs. -/
def CRYPTO_memcmp_cost (a b : List ℕ) : ℕ := (memcmpGo 0 a b).2

/-- Model of `ct_equal` (localsports.cpp:133-135): equality holds exactly
when `CRYPTO_memcmp` returns zero. -/
def ct_equal (a b : List ℕ) : Bool := CRYPTO_memcmp a b == 0

/-- Model of the modern password-verification path of
`LS_AuthLoginInteractive` (localsports.cpp:351-357): recompute the hash
from the entered password with the stored 16-byte salt and stored
iteration count using the external KDF `kdf` (PBKDF2-HMAC-SHA256 in the
source), then compare against the stored 32-byte hash with `ct_equal`. -/
def verifyPasswordModern (kdf : String → List ℕ → ℕ → List ℕ)
    (password : String) (salt storedHash : List ℕ) (iterations : ℕ) : Bool :=
  ct_equal storedHash (kdf password salt iterations)

theorem lor_eq_zero (m n : ℕ) : m ||| n = 0 ↔ m = 0 ∧ n = 0 := by
  constructor
  · intro h
    have hb : ∀ i, (m.testBit i || n.testBit i) = false := by
      intro i
      have := congrArg (fun x => Nat.testBit x i) h
      simpa [Nat.testBit_lor] using this
    constructor
    · apply Nat.eq_of_testBit_eq
      intro i
      have := hb i
      simp only [Bool.or_eq_false_iff] at this
      simp [this.1]
    · apply Nat.eq_of_testBit_eq
      intro i
      have := hb i
      simp only [Bool.or_eq_false_iff] at this
      simp [this.2]
  · rintro ⟨rfl, rfl⟩
    rfl

theorem memcmpGo_cost : ∀ (a b : List ℕ) (acc : ℕ),
    (memcmpGo acc a b).2 = min a.length b.length := by
  intro a
  induction a with
  | nil => intro b acc; cases b <;> simp [memcmpGo]
  | cons x xs ih =>
      intro b acc
      cases b with
      | nil => simp [memcmpGo]
      | cons y ys =>
          simp only [memcmpGo, List.length_cons]
          rw [ih]
          omega

theorem memcmpGo_eq_zero : ∀ (a b : List ℕ) (acc : ℕ), a.length = b.length →
    ((memcmpGo acc a b).1 = 0 ↔ acc = 0 ∧ a = b) := by
  intro a
  induction a with
  | nil =>
      intro b acc hlen
      cases b with
      | nil => simp [memcmpGo]
      | cons y ys => simp at hlen
  | cons x xs ih =>
      intro b acc hlen
      cases b with
      | nil => simp at hlen
      | cons y ys =>
          have hlen' : xs.length = ys.length := by simpa using hlen
          have hrec := ih ys (acc ||| (x ^^^ y)) hlen'
          simp only [memcmpGo]
          rw [hrec, lor_eq_zero, Nat.xor_eq_zero]
          simp only [List.cons.injEq]
          tauto

/-- C9. Constant-time password verification: the modern login path
recomputes the hash with the stored salt and iteration count and compares
the stored 32-byte hash with `ct_equal`, whose comparison cost is exactly
32 iterations for every pair of 32-byte inputs — independent of where the
first mismatching byte occurs — and which returns true exactly when the
hashes are equal. -/
theorem constant_time_verify (kdf : String → List ℕ → ℕ → List ℕ)
    (password : String) (salt storedHash : List ℕ) (iterations : ℕ)
    (hstored : storedHash.length = 32)
    (hkdf : (kdf password salt iterations).length = 32) :
    CRYPTO_memcmp_cost storedHash (kdf password salt iterations) = 32 ∧
    (verifyPasswordModern kdf password salt storedHash iterations = true ↔
      storedHash = kdf password salt iterations) := by
  constructor
  · simp [CRYPTO_memcmp_cost, memcmpGo_cost, hstored, hkdf]
  · have h := memcmpGo_eq_zero storedHash (kdf password salt iterations) 0
      (by rw [hstored, hkdf])
    simp only [verifyPasswordModern, ct_equal, CRYPTO_memcmp, beq_iff_eq, h]
    tauto

/-- A concrete stand-in KDF used by the C9 witness. -/
def kdf0 : String → List ℕ → ℕ → List ℕ :=
  fun _ _ _ => List.replicate 32 9

/-- Witness for C9: a matching pair and a pair differing already in the
first byte both cost exactly 32 iterations, and verification agrees with
equality. -/
theorem constant_time_verify_witness :
    CRYPTO_memcmp_cost (List.replicate 32 9) (kdf0 "pw" [] 150000) = 32 ∧
    (verifyPasswordModern kdf0 "pw" [] (List.replicate 32 9) 150000 = true ↔
      List.replicate 32 9 = kdf0 "pw" [] 150000) ∧
    CRYPTO_memcmp_cost (0 :: List.replicate 31 9) (kdf0 "pw" [] 150000) = 32 :=
  ⟨(constant_time_verify kdf0 "pw" [] (List.replicate 32 9) 150000
      (by simp) (by simp [kdf0])).1,
   (constant_time_verify kdf0 "pw" [] (List.replicate 32 9) 150000
      (by simp) (by simp [kdf0])).2,
   (constant_time_verify kdf0 "pw" [] (0 :: List.replicate 31 9) 150000
      (by simp) (by simp [kdf0])).1⟩
